import Mathlib

/-!
Shallow embedding of the host-inventory agent scheduling and delivery core
(`src/agent/windows/scanner.py` and `src/agent/windows/service.py`).

Modelling conventions:
  * instants (`datetime.now()`) are `Nat` values of a synthetic clock;
  * Python strings are `List Char`; `str.lower()` is `Char.toLower` mapped
    over the characters (both lower-case only the ASCII letters A-Z; the
    Python version also folds non-ASCII letters, a divergence irrelevant to
    the ASCII-named claims checked here);
  * a raised-and-caught Python exception is modelled by returning the
    unchanged state; fallible externals (enumeration sources, the HTTP POST,
    registered callbacks) are parameters describing their outcome;
  * enumerator-invocation counts are returned explicitly so that claims
    about how many scans happened are statable;
  * `list.sort(key=...)` is a stable sort by key; stable sorting is a
    uniquely determined function of the key order, so `List.insertionSort`
    over the key relation produces exactly the Python result.
-/

/-- Error raised by the inventory enumeration sources (registry / wmic). -/
inductive EnumErr : Type
  | enumFailure : EnumErr
deriving DecidableEq, Repr

/-- Network-level error raised by `requests.post` (connection refused,
timeout, DNS failure). -/
inductive NetErr : Type
  | netFailure : NetErr
deriving DecidableEq, Repr

/-- Origin tag of a software entry: the string `registry` or `wmic`
(`scanner.py` lines 74 and 121). -/
inductive SourceTag : Type
  | registry : SourceTag
  | wmic : SourceTag
deriving DecidableEq, Repr

/-- One installed-software record, the dict built by
`_get_software_from_registry` / `_get_software_from_wmic`
(`scanner.py`): name, version, vendor, install date, update date, source. -/
structure SoftwareEntry : Type where
  name : List Char
  version : Option (List Char)
  vendor : Option (List Char)
  install_date : Option (List Char)
  update_date : Option (List Char)
  source : SourceTag
deriving DecidableEq, Repr

/-- Case-insensitive key of an entry: `software[name].lower()` in
`scanner.py` lines 192, 199 and 221. -/
def nameKey (e : SoftwareEntry) : List Char :=
  e.name.map Char.toLower

/-- Lexicographic less-or-equal on Python strings (code-point order, a
proper initial segment is smaller), the order used by the sort-key
comparison in `scanner.py` line 221. -/
def lexLe : List Char → List Char → Bool
  | [], _ => true
  | _ :: _, [] => false
  | a :: as, b :: bs => if a < b then true else if b < a then false else lexLe as bs

/-- Order relation of `all_software.sort(key=lambda x: x[name].lower())`:
compare entries by lower-cased name. -/
def entryLE (a b : SoftwareEntry) : Prop :=
  lexLe (nameKey a) (nameKey b) = true

instance : DecidableRel entryLE := fun a b => by
  unfold entryLE; infer_instance

/-- Core of `_merge_software_lists` (`scanner.py` lines 187-204): walk the
entries, keep an entry whose lower-cased name was not seen before, record
its key in `seen_names`. The Python code appends kept entries to
`merged_list`; structural recursion with cons produces the same list in the
same order. -/
def dedupBy (seen : List (List Char)) : List SoftwareEntry → List SoftwareEntry
  | [] => []
  | software :: rest =>
    if nameKey software ∈ seen then dedupBy seen rest
    else software :: dedupBy (nameKey software :: seen) rest

/-- The two for-loops of `_merge_software_lists` traverse `registry_list`
first, then `wmic_list`, with one shared `seen_names` set: exactly the
single-pass dedup of the concatenation. -/
def merge_software_lists (registry_list wmic_list : List SoftwareEntry) : List SoftwareEntry :=
  dedupBy [] (registry_list ++ wmic_list)

/-- Opaque system-facts bundle (`system_info.collect_all_info()` in
`scanner.py` line 225); the core embeds it as an immutable blob. -/
structure FactsBundle : Type where
  blob : List Char
deriving DecidableEq, Repr

/-- The scan-result dict built by `WindowsScanner.scan` (`scanner.py`
lines 224-229): system info, timestamp, software count, sorted software
list. -/
structure InventoryReport : Type where
  system_info : FactsBundle
  scan_timestamp : Nat
  software_count : Nat
  software_list : List SoftwareEntry
deriving DecidableEq, Repr

/-- Outcome of the two enumeration sources consulted by `scan`: either the
pair (registry list, wmic list) or a raised error. -/
abbrev EnumOutcome : Type := Except EnumErr (List SoftwareEntry × List SoftwareEntry)

namespace WindowsScanner

/-- Body of `WindowsScanner.scan` (`scanner.py` lines 206-233): collect the
two source lists, merge, sort by lower-cased name, build the result dict
and store it in the memory cache. On an enumeration error the exception
propagates before the cache assignment, so the caller sees the error and
the cache is untouched; on success the result is returned together with the
new cache contents (`some result`). -/
def scan (enum : EnumOutcome) (facts : FactsBundle) (now : Nat) :
    Except EnumErr (InventoryReport × Option InventoryReport) :=
  match enum with
  | .error e => .error e
  | .ok (registry_software, wmic_software) =>
    let all_software :=
      List.insertionSort entryLE (merge_software_lists registry_software wmic_software)
    let result : InventoryReport :=
      { system_info := facts
        scan_timestamp := now
        software_count := all_software.length
        software_list := all_software }
    .ok (result, some result)

/-- Body of `WindowsScanner.get_data` (`scanner.py` lines 235-248): return
the cached dict when the memory cache is non-empty, otherwise run `scan`.
The second component is the cache after the call; the `Nat` counts how many
times the enumeration sources were invoked by this call. -/
def get_data (enum : EnumOutcome) (facts : FactsBundle) (now : Nat)
    (cache : Option InventoryReport) :
    Except EnumErr (InventoryReport × Option InventoryReport) × Nat :=
  match cache with
  | some cached => (.ok (cached, some cached), 0)
  | none =>
    match scan enum facts now with
    | .error e => (.error e, 1)
    | .ok (result, newCache) => (.ok (result, newCache), 1)

/-- Body of `WindowsScanner.clear_cache` (`scanner.py` lines 250-254). -/
def clear_cache (_cache : Option InventoryReport) : Option InventoryReport :=
  none

end WindowsScanner

/-- Mutable fields of `WindowsService` (`service.py` lines 25-30) together
with the scanner memory cache (`scanner.py` line 18), which the service
owns through `self.scanner`. -/
structure ServiceState : Type where
  is_running : Bool
  last_scan_time : Option Nat
  scan_count : Nat
  last_send_time : Option Nat
  send_count : Nat
  cache : Option InventoryReport
deriving DecidableEq, Repr

/-- Environment of one cycle execution: whether each registered callback
raises when invoked (an unregistered callback behaves like a non-raising
one), the outcome the enumeration sources would produce, the facts bundle,
and the current instant. -/
structure CycleEnv : Type where
  scan_start_throws : Bool
  scan_complete_throws : Bool
  send_start_throws : Bool
  send_complete_throws : Bool
  enum : EnumOutcome
  facts : FactsBundle
  now : Nat

/-- Outcome of `requests.post` in `_send_data_to_server` (`service.py`
lines 94-99): either a response status code or a raised network error. -/
abbrev HttpOutcome : Type := Except NetErr Nat

/-- Body of `_send_data_to_server` (`service.py` lines 77-108): POST the
data; on a response, return whether the status code is 200; a network error
propagates to the caller. The function reads no service state and mutates
none. -/
def send_data_to_server (http : HttpOutcome) : Except NetErr Bool :=
  match http with
  | .error e => .error e
  | .ok code => .ok (code == 200)

namespace WindowsService

/-- Body of `_trigger_scan` (`service.py` lines 136-155). Everything runs
inside one `try`: if `on_scan_start` raises, the handler catches the
exception and the cycle ends with nothing done; if `scanner.scan()` raises,
likewise nothing was updated; on success the cache, `last_scan_time` and
`scan_count` are updated (an `on_scan_complete` exception is caught after
those updates and changes nothing). Returns the new state and the number of
enumerator invocations. -/
def trigger_scan (env : CycleEnv) (s : ServiceState) : ServiceState × Nat :=
  if env.scan_start_throws then (s, 0)
  else
    match WindowsScanner.scan env.enum env.facts env.now with
    | .error _ => (s, 1)
    | .ok (_, newCache) =>
      ({ s with
          cache := newCache
          last_scan_time := some env.now
          scan_count := s.scan_count + 1 }, 1)

/-- Body of `_trigger_send` (`service.py` lines 157-176). Inside one `try`:
`on_send_start` may raise (caught, nothing done); then
`data = self.scanner.scan()` — a fresh scan, not a cache read — may raise
(caught, nothing updated); on success `last_send_time` and `send_count` are
updated BEFORE `_send_data_to_server(data)` runs, so the HTTP outcome (a
`False` return on non-200, or a caught network exception) affects no state.
Returns the new state, the data handed to `_send_data_to_server` (when that
call is reached), and the number of enumerator invocations. -/
def trigger_send (env : CycleEnv) (_http : HttpOutcome) (s : ServiceState) :
    ServiceState × Option InventoryReport × Nat :=
  if env.send_start_throws then (s, none, 0)
  else
    match WindowsScanner.scan env.enum env.facts env.now with
    | .error _ => (s, none, 1)
    | .ok (data, newCache) =>
      ({ s with
          cache := newCache
          last_send_time := some env.now
          send_count := s.send_count + 1 }, some data, 1)

/-- Interval test of the service loop (`service.py` lines 123-124 and
128-129): fire when the timestamp is unset or the elapsed seconds reach the
configured timeout. The synthetic clock is monotone, so Nat subtraction
matches the Python datetime difference. -/
def due (now : Nat) (last : Option Nat) (timeout_val : Nat) : Bool :=
  match last with
  | none => true
  | some t => now - t ≥ timeout_val

/-- Result of one loop iteration: the state afterwards and how many times
each cycle procedure (`_trigger_scan` / `_trigger_send`) was invoked. -/
structure TickResult : Type where
  state : ServiceState
  scan_cycle_runs : Nat
  send_cycle_runs : Nat
deriving DecidableEq, Repr

/-- The interval tunables read from `Settings` (`settings.py`):
`timeout_scan` and `timeout_send`. -/
structure LoopSettings : Type where
  timeout_scan : Nat
  timeout_send : Nat

/-- One iteration of `_service_loop` (`service.py` lines 116-134) after the
1-second sleep: check the scan interval and run `_trigger_scan` when due,
then check the send interval — and, as the source is written (line 130),
run `_trigger_scan` AGAIN when the send interval is due: `_trigger_send`
is never called anywhere in the loop. `send_cycle_runs` counts
`_trigger_send` invocations and is therefore always 0. -/
def service_tick (env : CycleEnv) (cfg : LoopSettings) (s : ServiceState) : TickResult :=
  if due env.now s.last_scan_time cfg.timeout_scan then
    let s1 := (trigger_scan env s).1
    if due env.now s1.last_send_time cfg.timeout_send then
      { state := (trigger_scan env s1).1, scan_cycle_runs := 2, send_cycle_runs := 0 }
    else
      { state := s1, scan_cycle_runs := 1, send_cycle_runs := 0 }
  else
    if due env.now s.last_send_time cfg.timeout_send then
      { state := (trigger_scan env s).1, scan_cycle_runs := 1, send_cycle_runs := 0 }
    else
      { state := s, scan_cycle_runs := 0, send_cycle_runs := 0 }

/-- Body of `get_software_data` (`service.py` lines 178-195): inside one
`try`, invoke `on_data_request` (may raise), then `scanner.get_data()`;
any exception is caught and `None` is returned. Returns the returned value,
the cache afterwards, and the enumerator-invocation count. -/
def get_software_data (data_request_throws : Bool) (enum : EnumOutcome)
    (facts : FactsBundle) (now : Nat) (cache : Option InventoryReport) :
    Option InventoryReport × Option InventoryReport × Nat :=
  if data_request_throws then (none, cache, 0)
  else
    match WindowsScanner.get_data enum facts now cache with
    | (.error _, n) => (none, cache, n)
    | (.ok (d, c), n) => (some d, c, n)

/-- The dict returned by `get_service_status` (`service.py` lines 204-216):
exactly four keys — `is_running`, `last_scan_time`, `scan_count`,
`thread_alive`. -/
structure ServiceStatus : Type where
  is_running : Bool
  last_scan_time : Option Nat
  scan_count : Nat
  thread_alive : Bool
deriving DecidableEq, Repr

/-- Body of `get_service_status` (`service.py` lines 204-216);
`thread_alive` reflects `self.service_thread.is_alive()`, an external
observation passed in. -/
def get_service_status (s : ServiceState) (thread_alive : Bool) : ServiceStatus :=
  { is_running := s.is_running
    last_scan_time := s.last_scan_time
    scan_count := s.scan_count
    thread_alive := thread_alive }

end WindowsService

/-! Interleaving model of concurrent `get_data` callers.

`WindowsScanner.get_data` has no lock: the cache check (`scanner.py`
line 243) and the cache write at the end of `scan` (line 232) are separate
atomic actions, with the long enumeration in between, and CPython threads
may interleave between them. Each caller is a two-step program: step one
reads the cache (non-empty: return it, finished; empty: start scanning);
step two finishes the scan, writes the fresh report to the cache and
returns it. -/

/-- Program counter of one concurrent `get_data` caller. -/
inductive CallerPC : Type
  | idle : CallerPC
  | scanning : CallerPC
  | done : InventoryReport → CallerPC
deriving DecidableEq, Repr

/-- Shared state of two concurrent `get_data` callers: the scanner memory
cache, both program counters, and the running count of enumeration calls. -/
structure RaceState : Type where
  cache : Option InventoryReport
  pc0 : CallerPC
  pc1 : CallerPC
  enum_calls : Nat
deriving DecidableEq, Repr

/-- One atomic step of a `get_data` caller, given the report a fresh scan
would produce: an idle caller reads the cache (the `if` of `get_data`);
a scanning caller completes `scan`, incrementing the enumeration count and
overwriting the cache. -/
def getDataStep (fresh : InventoryReport) :
    CallerPC → Option InventoryReport → Nat → CallerPC × Option InventoryReport × Nat
  | .idle, some r, n => (.done r, some r, n)
  | .idle, none, n => (.scanning, none, n)
  | .scanning, _, n => (.done fresh, some fresh, n + 1)
  | .done r, c, n => (.done r, c, n)

/-- Scheduler of the two callers: `false` steps caller 0, `true` steps
caller 1. -/
def raceStep (fresh : InventoryReport) (s : RaceState) (i : Bool) : RaceState :=
  if i then
    let (pc, c, n) := getDataStep fresh s.pc1 s.cache s.enum_calls
    { s with pc1 := pc, cache := c, enum_calls := n }
  else
    let (pc, c, n) := getDataStep fresh s.pc0 s.cache s.enum_calls
    { s with pc0 := pc, cache := c, enum_calls := n }

/-- Run a finite interleaving of the two callers. -/
def runSchedule (fresh : InventoryReport) (s0 : RaceState) (sched : List Bool) : RaceState :=
  sched.foldl (raceStep fresh) s0

/-! Concrete sample inputs used by witnesses and counterexamples. -/

/-- Empty facts bundle used in concrete evaluations. -/
def emptyFacts : FactsBundle :=
  { blob := [] }

/-- Cycle environment in which nothing fails: no callback raises, the
enumeration sources return two empty lists. -/
def envAllOk (now : Nat) : CycleEnv :=
  { scan_start_throws := false
    scan_complete_throws := false
    send_start_throws := false
    send_complete_throws := false
    enum := .ok ([], [])
    facts := emptyFacts
    now := now }

/-- Environment whose `on_scan_start` callback raises. -/
def envScanStartThrows (now : Nat) : CycleEnv :=
  { envAllOk now with scan_start_throws := true }

/-- Environment whose enumeration sources raise. -/
def envEnumFails (now : Nat) : CycleEnv :=
  { envAllOk now with enum := .error .enumFailure }

/-- Report produced by a fresh scan of the `envAllOk` environment at
instant `now`: empty software list, count 0. -/
def emptyReportAt (now : Nat) : InventoryReport :=
  { system_info := emptyFacts
    scan_timestamp := now
    software_count := 0
    software_list := [] }

/-- Running service whose send timestamp is unset (send interval due) while
the scan interval is not due at instant 51 under a scan timeout of 100. -/
def stateSendDue : ServiceState :=
  { is_running := true
    last_scan_time := some 50
    scan_count := 1
    last_send_time := none
    send_count := 0
    cache := none }

/-- Running service that has already recorded three sends. -/
def stateThreeSends : ServiceState :=
  { is_running := true
    last_scan_time := some 5
    scan_count := 1
    last_send_time := some 10
    send_count := 3
    cache := none }

/-- Freshly started service: no scans, no sends, empty cache. -/
def stateFresh : ServiceState :=
  { is_running := true
    last_scan_time := none
    scan_count := 0
    last_send_time := none
    send_count := 0
    cache := none }

/-- Distinguishable cached report (software count 7) used to check which
report the delivery cycle transmits. -/
def cachedSeven : InventoryReport :=
  { system_info := emptyFacts
    scan_timestamp := 1
    software_count := 7
    software_list := [] }

/-- Running service holding `cachedSeven` in the cache. -/
def stateCachedSeven : ServiceState :=
  { is_running := true
    last_scan_time := some 1
    scan_count := 1
    last_send_time := none
    send_count := 0
    cache := some cachedSeven }

/-- Service state with five sends at instant 9. -/
def stateFiveSends : ServiceState :=
  { is_running := true
    last_scan_time := some 3
    scan_count := 2
    last_send_time := some 9
    send_count := 5
    cache := none }

/-- Same as `stateFiveSends` except the send fields differ. -/
def stateNinetyNineSends : ServiceState :=
  { stateFiveSends with
    last_send_time := none
    send_count := 99 }

/-! Helper lemmas. -/

theorem lexLe_total (xs : List Char) : ∀ ys, lexLe xs ys = true ∨ lexLe ys xs = true := by
  induction xs with
  | nil => intro ys; left; rfl
  | cons a as ih =>
    intro ys
    cases ys with
    | nil => right; rfl
    | cons b bs =>
      rcases lt_trichotomy a b with h | h | h
      · left; simp [lexLe, h]
      · subst h
        rcases ih bs with h2 | h2
        · left; simp [lexLe, lt_irrefl, h2]
        · right; simp [lexLe, lt_irrefl, h2]
      · right; simp [lexLe, h]

theorem lexLe_trans : ∀ xs ys zs : List Char,
    lexLe xs ys = true → lexLe ys zs = true → lexLe xs zs = true := by
  intro xs
  induction xs with
  | nil => intro ys zs _ _; rfl
  | cons a as ih =>
    intro ys zs hxy hyz
    cases ys with
    | nil => simp [lexLe] at hxy
    | cons b bs =>
      cases zs with
      | nil => simp [lexLe] at hyz
      | cons c cs =>
        rcases lt_trichotomy a b with hab | hab | hab
        · rcases lt_trichotomy b c with hbc | hbc | hbc
          · have : a < c := lt_trans hab hbc
            simp [lexLe, this]
          · subst hbc; simp [lexLe, hab]
          · exfalso
            simp [lexLe, hbc, lt_asymm hbc] at hyz
        · subst hab
          rcases lt_trichotomy a c with hac | hac | hac
          · simp [lexLe, hac]
          · subst hac
            simp only [lexLe, lt_irrefl, if_false] at hxy hyz ⊢
            exact ih bs cs hxy hyz
          · exfalso
            simp [lexLe, hac, lt_asymm hac] at hyz
        · exfalso
          simp [lexLe, hab, lt_asymm hab] at hxy

theorem dedupBy_subset {seen : List (List Char)} {l : List SoftwareEntry}
    {e : SoftwareEntry} (h : e ∈ dedupBy seen l) : e ∈ l := by
  induction l generalizing seen with
  | nil => simp [dedupBy] at h
  | cons a rest ih =>
    by_cases hk : nameKey a ∈ seen
    · simp only [dedupBy, if_pos hk] at h
      exact List.mem_cons_of_mem _ (ih h)
    · simp only [dedupBy, if_neg hk, List.mem_cons] at h
      rcases h with h | h
      · exact h ▸ List.mem_cons_self _ _
      · exact List.mem_cons_of_mem _ (ih h)

theorem dedupBy_key_not_seen {seen : List (List Char)} {l : List SoftwareEntry}
    {e : SoftwareEntry} (h : e ∈ dedupBy seen l) : nameKey e ∉ seen := by
  induction l generalizing seen with
  | nil => simp [dedupBy] at h
  | cons a rest ih =>
    by_cases hk : nameKey a ∈ seen
    · simp only [dedupBy, if_pos hk] at h
      exact ih h
    · simp only [dedupBy, if_neg hk, List.mem_cons] at h
      rcases h with h | h
      · exact h ▸ hk
      · intro hmem
        exact (ih h) (List.mem_cons_of_mem _ hmem)

theorem dedupBy_keys_nodup (seen : List (List Char)) (l : List SoftwareEntry) :
    ((dedupBy seen l).map nameKey).Nodup := by
  induction l generalizing seen with
  | nil => simp [dedupBy]
  | cons a rest ih =>
    by_cases hk : nameKey a ∈ seen
    · simp only [dedupBy, if_pos hk]
      exact ih seen
    · simp only [dedupBy, if_neg hk, List.map_cons, List.nodup_cons]
      refine ⟨?_, ih _⟩
      intro hmem
      rcases List.mem_map.mp hmem with ⟨e, he, hkey⟩
      exact (dedupBy_key_not_seen he) (hkey ▸ List.mem_cons_self _ _)

theorem dedupBy_keys_mem (seen : List (List Char)) (l : List SoftwareEntry)
    (k : List Char) :
    k ∈ (dedupBy seen l).map nameKey ↔ k ∈ l.map nameKey ∧ k ∉ seen := by
  induction l generalizing seen with
  | nil => simp [dedupBy]
  | cons a rest ih =>
    by_cases hk : nameKey a ∈ seen
    · simp only [dedupBy, if_pos hk, List.map_cons, List.mem_cons]
      rw [ih seen]
      constructor
      · rintro ⟨hmem, hns⟩; exact ⟨Or.inr hmem, hns⟩
      · rintro ⟨hor, hns⟩
        rcases hor with h | h
        · exact absurd (h ▸ hk) hns
        · exact ⟨h, hns⟩
    · simp only [dedupBy, if_neg hk, List.map_cons, List.mem_cons]
      rw [ih (nameKey a :: seen)]
      constructor
      · rintro (h | ⟨hmem, hns⟩)
        · exact ⟨Or.inl h, h ▸ hk⟩
        · exact ⟨Or.inr hmem, fun hs => hns (List.mem_cons_of_mem _ hs)⟩
      · rintro ⟨hor, hns⟩
        rcases hor with h | h
        · exact Or.inl h
        · by_cases hak : k = nameKey a
          · exact Or.inl hak
          · exact Or.inr ⟨h, by
              intro hmem
              rcases List.mem_cons.mp hmem with h1 | h1
              · exact hak h1
              · exact hns h1⟩

theorem dedupBy_prefers_first (r w : List SoftwareEntry) :
    ∀ (seen : List (List Char)) (e : SoftwareEntry),
      e ∈ dedupBy seen (r ++ w) → nameKey e ∈ r.map nameKey → e ∈ r := by
  induction r with
  | nil => intro seen e _ hkey; simp at hkey
  | cons a rest ih =>
    intro seen e hmem hkey
    rw [List.map_cons, List.mem_cons] at hkey
    by_cases hk : nameKey a ∈ seen
    · simp only [List.cons_append, dedupBy, if_pos hk] at hmem
      rcases hkey with h1 | h1
      · exact absurd (h1 ▸ hk) (dedupBy_key_not_seen hmem)
      · exact List.mem_cons_of_mem _ (ih seen e hmem h1)
    · simp only [List.cons_append, dedupBy, if_neg hk, List.mem_cons] at hmem
      rcases hmem with h | h
      · exact h ▸ List.mem_cons_self _ _
      · rcases hkey with h1 | h1
        · exact absurd (h1 ▸ List.mem_cons_self _ _) (dedupBy_key_not_seen h)
        · exact List.mem_cons_of_mem _ (ih _ e h h1)

theorem scan_ok_shape {enum : EnumOutcome} {facts : FactsBundle} {now : Nat}
    {rep : InventoryReport} {c : Option InventoryReport}
    (h : WindowsScanner.scan enum facts now = .ok (rep, c)) : c = some rep := by
  cases enum with
  | error e => simp [WindowsScanner.scan] at h
  | ok d =>
    obtain ⟨dr, dw⟩ := d
    simp only [WindowsScanner.scan, Except.ok.injEq, Prod.mk.injEq] at h
    rw [← h.2, h.1]

/-! Claim theorems. -/

/-- Claim C1: the claim says that a tick whose send interval has elapsed
(or whose `lastSendAt` is unset) runs the Delivery Cycle. The code disagrees:
`_service_loop` line 130 calls `_trigger_scan`, not `_trigger_send`, in the
send branch, so no tick ever runs the Delivery Cycle (`send_cycle_runs` is 0
for every tick), and a concrete tick whose send interval alone is due runs a
Scan Cycle instead: `scan_count` advances while `send_count` and
`last_send_time` stay untouched. -/
theorem claim_c1_send_branch_runs_scan_cycle :
    (∀ (env : CycleEnv) (cfg : WindowsService.LoopSettings) (s : ServiceState),
        (WindowsService.service_tick env cfg s).send_cycle_runs = 0)
    ∧ (WindowsService.service_tick (envAllOk 51) ⟨100, 5⟩ stateSendDue).scan_cycle_runs = 1
    ∧ (WindowsService.service_tick (envAllOk 51) ⟨100, 5⟩ stateSendDue).state.send_count = 0
    ∧ (WindowsService.service_tick (envAllOk 51) ⟨100, 5⟩ stateSendDue).state.last_send_time = none
    ∧ (WindowsService.service_tick (envAllOk 51) ⟨100, 5⟩ stateSendDue).state.scan_count = 2 := by
  refine ⟨?_, by decide, by decide, by decide, by decide⟩
  intro env cfg s
  unfold WindowsService.service_tick
  split
  · dsimp only
    split <;> rfl
  · split <;> rfl

/-- Claim C2 counterexample: against the claim, a Delivery Cycle whose POST
fails with HTTP 500 does change `sendCount` and `lastSendAt` — the code
updates both before `_send_data_to_server` runs. -/
theorem claim_c2_counterexample :
    ((WindowsService.trigger_send (envAllOk 42) (.ok 500) stateThreeSends).1.send_count
        ≠ stateThreeSends.send_count)
    ∧ ((WindowsService.trigger_send (envAllOk 42) (.ok 500) stateThreeSends).1.last_send_time
        ≠ stateThreeSends.last_send_time) := by
  decide

/-- Claim C2 amended: for every execution of the Delivery Cycle in which
the HTTP POST fails (non-200 response or network error), the scheduler loop
does not crash or stop ticking (the cycle returns normally and `is_running`
is untouched), but — whenever enumeration succeeded and `on_send_start` did
not raise — `sendCount` has already been incremented and `lastSendAt`
already set before the POST, and the final state is identical to the one a
successful POST would produce. -/
theorem claim_c2_amended (env : CycleEnv) (http : HttpOutcome) (s : ServiceState)
    (d : List SoftwareEntry × List SoftwareEntry)
    (hcb : env.send_start_throws = false)
    (henum : env.enum = .ok d)
    (hfail : http = .error .netFailure ∨ ∃ code, http = .ok code ∧ code ≠ 200) :
    ((WindowsService.trigger_send env http s).1.send_count = s.send_count + 1)
    ∧ ((WindowsService.trigger_send env http s).1.last_send_time = some env.now)
    ∧ ((WindowsService.trigger_send env http s).1.is_running = s.is_running)
    ∧ WindowsService.trigger_send env http s
        = WindowsService.trigger_send env (.ok 200) s := by
  obtain ⟨dr, dw⟩ := d
  simp [WindowsService.trigger_send, hcb, henum, WindowsScanner.scan]

/-- Witness for the amended claim C2 at a concrete failing POST. -/
theorem claim_c2_amended_witness :
    ((WindowsService.trigger_send (envAllOk 42) (.ok 500) stateThreeSends).1.send_count = 4)
    ∧ ((WindowsService.trigger_send (envAllOk 42) (.ok 500) stateThreeSends).1.last_send_time
        = some 42) := by
  have h := claim_c2_amended (envAllOk 42) (.ok 500) stateThreeSends ([], []) rfl rfl
    (Or.inr ⟨500, rfl, by decide⟩)
  exact ⟨h.1, h.2.1⟩

/-- Claim C3 counterexample: against the claim, when `on_scan_start` raises
the Scan Cycle aborts entirely — the enumerator is never invoked (0 calls)
and the state, including `scan_count` and the cache, is unchanged; the same
cycle without the callback failure would have advanced `scan_count`. -/
theorem claim_c3_counterexample :
    (WindowsService.trigger_scan (envScanStartThrows 7) stateFresh).2 = 0
    ∧ (WindowsService.trigger_scan (envScanStartThrows 7) stateFresh).1 = stateFresh
    ∧ (WindowsService.trigger_scan (envAllOk 7) stateFresh).1.scan_count = 1 := by
  decide

/-- Claim C3 amended: a failure raised by the registered `onScanStart`
callback is caught (the cycle returns normally, the loop keeps running),
but it aborts the rest of the cycle: the enumerator is not invoked and the
cache, `scanCount` and `lastScanAt` are left unchanged. -/
theorem claim_c3_amended (env : CycleEnv) (s : ServiceState)
    (h : env.scan_start_throws = true) :
    WindowsService.trigger_scan env s = (s, 0) := by
  simp [WindowsService.trigger_scan, h]

/-- Witness for the amended claim C3 at a concrete raising callback. -/
theorem claim_c3_amended_witness :
    WindowsService.trigger_scan (envScanStartThrows 7) stateFresh = (stateFresh, 0) :=
  claim_c3_amended (envScanStartThrows 7) stateFresh rfl

/-- Claim C4 counterexample: against the claim, the dict returned by
`get_service_status` does not reflect the full ScheduleState: two states
that differ in `send_count` and `last_send_time` produce identical status
dicts, so the snapshot contains neither field. -/
theorem claim_c4_counterexample :
    stateFiveSends.send_count ≠ stateNinetyNineSends.send_count
    ∧ stateFiveSends.last_send_time ≠ stateNinetyNineSends.last_send_time
    ∧ WindowsService.get_service_status stateFiveSends true
        = WindowsService.get_service_status stateNinetyNineSends true := by
  decide

/-- Claim C4 amended: every call of `status()` returns a snapshot holding
the running flag, `lastScanAt`, `scanCount` and a thread-alive flag — and
nothing else: it omits `lastSendAt` and `sendCount`, whose values cannot
influence the returned snapshot. -/
theorem claim_c4_amended (s : ServiceState) (alive : Bool) :
    WindowsService.get_service_status s alive
      = { is_running := s.is_running
          last_scan_time := s.last_scan_time
          scan_count := s.scan_count
          thread_alive := alive }
    ∧ (∀ (t : Option Nat) (n : Nat),
        WindowsService.get_service_status
            { s with last_send_time := t, send_count := n } alive
          = WindowsService.get_service_status s alive) :=
  ⟨rfl, fun _ _ => rfl⟩

/-- Claim C5 counterexample: against the claim, a Delivery Cycle running
over a non-empty cache (`cachedSeven`) still performs one fresh enumeration
and transmits the freshly scanned report, not the cached one:
`_trigger_send` calls `scanner.scan()`, never `get_data()`. -/
theorem claim_c5_counterexample :
    (WindowsService.trigger_send (envAllOk 9) (.ok 200) stateCachedSeven).2.2 = 1
    ∧ (WindowsService.trigger_send (envAllOk 9) (.ok 200) stateCachedSeven).2.1
        ≠ some cachedSeven
    ∧ (WindowsService.trigger_send (envAllOk 9) (.ok 200) stateCachedSeven).2.1
        = some (emptyReportAt 9) := by
  decide

/-- Claim C5 amended: every execution of the Delivery Cycle obtains its
report by calling `scan()` directly: whenever `on_send_start` does not raise
and enumeration succeeds, exactly one enumeration is performed regardless of
the cache state, and the freshly scanned report is both the one handed to
the POST and the new cache contents. -/
theorem claim_c5_amended (env : CycleEnv) (http : HttpOutcome) (s : ServiceState)
    (d : List SoftwareEntry × List SoftwareEntry)
    (hcb : env.send_start_throws = false)
    (henum : env.enum = .ok d) :
    (WindowsService.trigger_send env http s).2.2 = 1
    ∧ (∀ (rep : InventoryReport) (c : Option InventoryReport),
        WindowsScanner.scan env.enum env.facts env.now = .ok (rep, c) →
        WindowsService.trigger_send env http s
          = ({ s with
                cache := c
                last_send_time := some env.now
                send_count := s.send_count + 1 }, some rep, 1)) := by
  obtain ⟨dr, dw⟩ := d
  constructor
  · simp [WindowsService.trigger_send, hcb, henum, WindowsScanner.scan]
  · intro rep c hscan
    simp [WindowsService.trigger_send, hcb, hscan]

/-- Witness for the amended claim C5 at a concrete non-empty cache. -/
theorem claim_c5_amended_witness :
    (WindowsService.trigger_send (envAllOk 9) (.ok 200) stateCachedSeven).2.2 = 1
    ∧ WindowsService.trigger_send (envAllOk 9) (.ok 200) stateCachedSeven
        = ({ stateCachedSeven with
              cache := some (emptyReportAt 9)
              last_send_time := some 9
              send_count := 1 }, some (emptyReportAt 9), 1) := by
  have h := claim_c5_amended (envAllOk 9) (.ok 200) stateCachedSeven ([], []) rfl rfl
  exact ⟨h.1, h.2 (emptyReportAt 9) (some (emptyReportAt 9)) rfl⟩

/-- Claim C6: for every pair of input lists from the registry source and
the wmic source, the software list of the report produced by a scan holds
each case-insensitive name exactly once (keys are nodup, and the key set is
exactly the union of the input key sets), every kept entry comes from one
of the two inputs, any entry whose key occurs in the registry input is the
registry-sourced one, and the list is sorted ascending by case-insensitive
name. -/
theorem claim_c6_merge_sort_dedup (registry_software wmic_software : List SoftwareEntry)
    (facts : FactsBundle) (now : Nat) :
    ∃ report : InventoryReport,
      WindowsScanner.scan (.ok (registry_software, wmic_software)) facts now
        = .ok (report, some report)
      ∧ (report.software_list.map nameKey).Nodup
      ∧ (∀ k, k ∈ report.software_list.map nameKey ↔
          k ∈ registry_software.map nameKey ∨ k ∈ wmic_software.map nameKey)
      ∧ (∀ e ∈ report.software_list, e ∈ registry_software ∨ e ∈ wmic_software)
      ∧ (∀ e ∈ report.software_list,
          nameKey e ∈ registry_software.map nameKey → e ∈ registry_software)
      ∧ report.software_list.Sorted entryLE := by
  have hperm : (List.insertionSort entryLE
      (merge_software_lists registry_software wmic_software)).Perm
      (merge_software_lists registry_software wmic_software) :=
    List.perm_insertionSort entryLE _
  refine ⟨{ system_info := facts
            scan_timestamp := now
            software_count :=
              (List.insertionSort entryLE
                (merge_software_lists registry_software wmic_software)).length
            software_list :=
              List.insertionSort entryLE
                (merge_software_lists registry_software wmic_software) },
    rfl, ?_, ?_, ?_, ?_, ?_⟩
  · exact List.Perm.nodup (hperm.map nameKey).symm (dedupBy_keys_nodup [] _)
  · intro k
    rw [List.Perm.mem_iff (hperm.map nameKey)]
    show k ∈ (dedupBy [] (registry_software ++ wmic_software)).map nameKey ↔ _
    rw [dedupBy_keys_mem]
    simp [List.mem_append]
  · intro e he
    have h1 : e ∈ registry_software ++ wmic_software := dedupBy_subset (hperm.subset he)
    exact List.mem_append.mp h1
  · intro e he hkey
    exact dedupBy_prefers_first registry_software wmic_software [] e (hperm.subset he) hkey
  · exact @List.sorted_insertionSort _ entryLE _
      ⟨fun a b => lexLe_total _ _⟩
      ⟨fun _ _ _ hab hbc => lexLe_trans _ _ _ hab hbc⟩ _

/-- Claim C7: when the enumerator raises during a Scan Cycle, the cycle
leaves the whole state (counters, timestamps, cache) unchanged, the
previously cached report is still what `get_data` returns (without a new
enumeration), and a subsequent successful Scan Cycle still advances
`scan_count` and `last_scan_time`. -/
theorem claim_c7_enum_failure_isolated (env env2 : CycleEnv) (s : ServiceState)
    (e : EnumErr) (r : InventoryReport) (d : List SoftwareEntry × List SoftwareEntry)
    (henum : env.enum = .error e)
    (hcache : s.cache = some r)
    (hcb2 : env2.scan_start_throws = false)
    (henum2 : env2.enum = .ok d) :
    (WindowsService.trigger_scan env s).1 = s
    ∧ WindowsScanner.get_data env2.enum env2.facts env2.now
        (WindowsService.trigger_scan env s).1.cache = (.ok (r, some r), 0)
    ∧ (WindowsService.trigger_scan env2 (WindowsService.trigger_scan env s).1).1.scan_count
        = s.scan_count + 1
    ∧ (WindowsService.trigger_scan env2 (WindowsService.trigger_scan env s).1).1.last_scan_time
        = some env2.now := by
  obtain ⟨dr, dw⟩ := d
  have h0 : (WindowsService.trigger_scan env s).1 = s := by
    by_cases hcb : env.scan_start_throws
    · simp [WindowsService.trigger_scan, hcb]
    · simp [WindowsService.trigger_scan, hcb, henum, WindowsScanner.scan]
  refine ⟨h0, ?_, ?_, ?_⟩
  · rw [h0, hcache]
    rfl
  · rw [h0]
    simp [WindowsService.trigger_scan, hcb2, henum2, WindowsScanner.scan]
  · rw [h0]
    simp [WindowsService.trigger_scan, hcb2, henum2, WindowsScanner.scan]

/-- Witness for claim C7: a failing enumeration at instant 5 over a cached
report, followed by a successful scan at instant 6. -/
theorem claim_c7_witness :
    (WindowsService.trigger_scan (envEnumFails 5) stateCachedSeven).1 = stateCachedSeven
    ∧ WindowsScanner.get_data (envAllOk 6).enum (envAllOk 6).facts (envAllOk 6).now
        (WindowsService.trigger_scan (envEnumFails 5) stateCachedSeven).1.cache
        = (.ok (cachedSeven, some cachedSeven), 0)
    ∧ (WindowsService.trigger_scan (envAllOk 6)
        (WindowsService.trigger_scan (envEnumFails 5) stateCachedSeven).1).1.scan_count = 2
    ∧ (WindowsService.trigger_scan (envAllOk 6)
        (WindowsService.trigger_scan (envEnumFails 5) stateCachedSeven).1).1.last_scan_time
        = some 6 :=
  claim_c7_enum_failure_isolated (envEnumFails 5) (envAllOk 6) stateCachedSeven
    .enumFailure cachedSeven ([], []) rfl rfl rfl rfl

/-- Claim C8: a successful `get_data` call invokes the enumerator at most
once; a non-empty cache is returned as is with zero enumerations; an empty
cache leads to one scan whose fresh result is stored and returned; and any
second `get_data` call over the resulting cache — whatever its enumeration
outcome — returns the identical report with zero further enumerations. -/
theorem claim_c8_get_data_idempotent (enum : EnumOutcome) (facts : FactsBundle)
    (now : Nat) (cache : Option InventoryReport)
    (r1 : InventoryReport) (c1 : Option InventoryReport) (n1 : Nat)
    (h1 : WindowsScanner.get_data enum facts now cache = (.ok (r1, c1), n1)) :
    n1 ≤ 1
    ∧ c1 = some r1
    ∧ (∀ r, cache = some r → r1 = r ∧ n1 = 0)
    ∧ (cache = none → n1 = 1 ∧ WindowsScanner.scan enum facts now = .ok (r1, some r1))
    ∧ (∀ (enum2 : EnumOutcome) (facts2 : FactsBundle) (now2 : Nat),
        WindowsScanner.get_data enum2 facts2 now2 c1 = (.ok (r1, some r1), 0)) := by
  cases cache with
  | some cached =>
    simp only [WindowsScanner.get_data, Prod.mk.injEq, Except.ok.injEq] at h1
    obtain ⟨⟨hr, hc⟩, hn⟩ := h1
    subst hr
    rw [← hc, ← hn]
    exact ⟨by omega, rfl, fun r hr2 => by
      simp only [Option.some.injEq] at hr2
      exact ⟨hr2, rfl⟩,
      fun hnone => by simp at hnone,
      fun enum2 facts2 now2 => rfl⟩
  | none =>
    rcases hscan : WindowsScanner.scan enum facts now with e | p
    · rw [WindowsScanner.get_data, hscan] at h1
      simp at h1
    · obtain ⟨res, nc⟩ := p
      have hnc : nc = some res := scan_ok_shape hscan
      subst hnc
      rw [WindowsScanner.get_data, hscan] at h1
      simp only [Prod.mk.injEq, Except.ok.injEq] at h1
      obtain ⟨⟨hr, hc⟩, hn⟩ := h1
      subst hr
      rw [← hc, ← hn]
      exact ⟨by omega, rfl,
        fun r hr2 => by simp at hr2,
        fun _ => ⟨rfl, rfl⟩,
        fun enum2 facts2 now2 => rfl⟩

/-- Witness for claim C8: a first call over an empty cache scans once and
stores the fresh report; a second call — even with a failing enumeration
outcome — returns the identical report without scanning. -/
theorem claim_c8_witness :
    WindowsScanner.get_data (.ok ([], [])) emptyFacts 3 none
      = (.ok (emptyReportAt 3, some (emptyReportAt 3)), 1)
    ∧ WindowsScanner.get_data (.error .enumFailure) emptyFacts 99 (some (emptyReportAt 3))
      = (.ok (emptyReportAt 3, some (emptyReportAt 3)), 0) := by
  have h := claim_c8_get_data_idempotent (.ok ([], [])) emptyFacts 3 none
    (emptyReportAt 3) (some (emptyReportAt 3)) 1 rfl
  exact ⟨rfl, h.2.2.2.2 (.error .enumFailure) emptyFacts 99⟩

/-- Claim C9: the claim says N concurrent `get()` calls against an empty
cache coalesce into exactly one enumeration. The code has no lock between
the cache check and the cache write, so the interleaving in which both
callers read the empty cache before either scans performs TWO enumeration
calls for two callers — no coalescing — even though both callers do end up
receiving the (equal) fresh report. -/
theorem claim_c9_no_coalescing :
    WindowsScanner.scan (.ok ([], [])) emptyFacts 0
      = .ok (emptyReportAt 0, some (emptyReportAt 0))
    ∧ (runSchedule (emptyReportAt 0) ⟨none, .idle, .idle, 0⟩
        [false, true, false, true]).enum_calls = 2
    ∧ (runSchedule (emptyReportAt 0) ⟨none, .idle, .idle, 0⟩
        [false, true, false, true]).pc0 = .done (emptyReportAt 0)
    ∧ (runSchedule (emptyReportAt 0) ⟨none, .idle, .idle, 0⟩
        [false, true, false, true]).pc1 = .done (emptyReportAt 0) := by
  refine ⟨rfl, by decide, by decide, by decide⟩

/-- Claim C10: whenever obtaining the data inside `get_software_data`
raises — the `on_data_request` callback throws, or `get_data` propagates an
enumeration error — the exception is caught and `None` is returned. -/
theorem claim_c10_data_errors_return_none (cbThrows : Bool) (enum : EnumOutcome)
    (facts : FactsBundle) (now : Nat) (cache : Option InventoryReport)
    (h : cbThrows = true ∨ ∃ e, (WindowsScanner.get_data enum facts now cache).1 = .error e) :
    (WindowsService.get_software_data cbThrows enum facts now cache).1 = none := by
  rcases h with h | ⟨e, h⟩
  · simp [WindowsService.get_software_data, h]
  · rcases hgd : WindowsScanner.get_data enum facts now cache with ⟨res, n⟩
    rw [hgd] at h
    have hres : res = .error e := h
    subst hres
    by_cases hcb : cbThrows <;> simp [WindowsService.get_software_data, hcb, hgd]

/-- Witness for claim C10: a failing enumeration over an empty cache makes
`get_software_data` return `None`. -/
theorem claim_c10_witness :
    (WindowsService.get_software_data false (.error .enumFailure) emptyFacts 4 none).1
      = none :=
  claim_c10_data_errors_return_none false (.error .enumFailure) emptyFacts 4 none
    (Or.inr ⟨.enumFailure, rfl⟩)
